import Mathlib

/-!
Verification development for the `statstables` table-rendering library.

This file gives a shallow embedding of the library's core (the abstract
table model in `statstables/tables.py` and the renderers in
`statstables/renderers.py`) and proves properties of that embedding.

Modelling conventions:
* Python exceptions are modelled with `Except PyError`; a mutator method
  `Table.m(...)` becomes a function `TableState -> args -> Except PyError
  TableState` (the source methods validate before they mutate, so an error
  leaves the state unchanged, which the functional encoding makes exact).
* Python floats are modelled by exact fractions (`PyFloat`, an integer
  numerator over a positive natural denominator); every concrete number
  appearing in the claims (1234.5, 0.1, ...) is used only through decimal
  formatting and order comparisons, which agree with the float behaviour.
* `Table.formatters = None` (the initial value) is modelled by the empty
  association list; the source only reads `formatters` after one of the
  `index_formatter` / `column_formatter` flags has been set, at which point
  it is a dict.
* The `custom_lines` collection is a `defaultdict(list)`; it is modelled
  extensionally as one list per valid insertion point (a missing key and a
  key holding `[]` are observationally identical in the source).
* `tables.py` in this snapshot predates `renderers.py`: the renderers read
  `table._multicolumns`, `table._column_labels` and `table.show_columns`
  while `tables.py` writes `multicolumns` / `column_labels` and the default
  `show_columns = True` lives in `parameters.py` (`DEFAULT_TABLE_PARAMS`).
  The embedding uses a single field for each such pair and carries
  `showColumns` in the state, defaulting to `true` as in `parameters.py`.
-/

/-- Python exception kinds raised by the modelled code paths. -/
inductive PyError where
  | assertionError (msg : String)
  | valueError (msg : String)
  | keyError (msg : String)
  | indexError (msg : String)
deriving Repr, DecidableEq

/-- Exact-fraction model of a Python number: `num / den` with `den ≠ 0`
expected.  Only formatting and order comparisons are performed on these,
never equality of values. -/
structure PyFloat where
  num : Int
  den : Nat
deriving Repr, DecidableEq

/-- Scalar cell values fed to the table, per the input contract
(numbers or strings). -/
inductive CellValue where
  | int (n : Int)
  | float (x : PyFloat)
  | str (s : String)
deriving Repr, DecidableEq

/-- A note as stored by `Table.add_note`: the `(note, alignment, escape)`
triple appended to `self.notes`. -/
abbrev Note := String × String × Bool

/-- A Python value passed to `Table.remove_note(note=...)`: either a bare
string or a full `(text, alignment, escape)` triple.  Needed because
Python's `list.remove` compares the argument against the stored triples. -/
inductive PyObj where
  | str (s : String)
  | triple (note alignment : String) (esc : Bool)
deriving Repr, DecidableEq

/-- Python `==` between a `remove_note` argument and a stored note triple:
a `str` never equals a tuple; tuples compare componentwise. -/
def pyTargetEq : PyObj → Note → Bool
  | .str _, _ => false
  | .triple n a e, (n', a', e') => decide (n = n' ∧ a = a' ∧ e = e')

/-- A custom line record as stored by `Table.add_line`:
the dict `{"line": line, "label": label}`. -/
structure LineRec where
  line : List String
  label : String
deriving Repr, DecidableEq

/-- The `custom_lines` defaultdict, modelled extensionally with one list
per valid insertion point. -/
structure CustomLines where
  top : List LineRec := []
  afterMulticolumns : List LineRec := []
  afterColumns : List LineRec := []
  afterBody : List LineRec := []
  afterFooter : List LineRec := []
deriving Repr, DecidableEq

/-- The `custom_tex_lines` / `custom_html_lines` defaultdicts (raw
pre-formatted strings per insertion point). -/
structure CustomStrLines where
  top : List String := []
  afterMulticolumns : List String := []
  afterColumns : List String := []
  afterBody : List String := []
  afterFooter : List String := []
deriving Repr, DecidableEq

def CustomLines.get (cl : CustomLines) : String → List LineRec
  | "top" => cl.top
  | "after-multicolumns" => cl.afterMulticolumns
  | "after-columns" => cl.afterColumns
  | "after-body" => cl.afterBody
  | "after-footer" => cl.afterFooter
  | _ => []

def CustomLines.set (cl : CustomLines) (loc : String) (v : List LineRec) : CustomLines :=
  match loc with
  | "top" => { cl with top := v }
  | "after-multicolumns" => { cl with afterMulticolumns := v }
  | "after-columns" => { cl with afterColumns := v }
  | "after-body" => { cl with afterBody := v }
  | "after-footer" => { cl with afterFooter := v }
  | _ => cl

/-- The fields of the abstract `Table` base class that the modelled
methods and renderers read or write (`Table.reset_params` plus the
subclass fields `columns` / `ncolumns` fixed at construction). -/
structure TableState where
  ncolumns : Nat
  columns : List String
  indexLabels : List (String × String) := []
  columnLabels : List (String × String) := []
  multicolumns : List (List String × List Nat) := []
  formatters : List (String × (CellValue → String)) := []
  indexFormatter : Bool := false
  columnFormatter : Bool := false
  notes : List Note := []
  customLines : CustomLines := {}
  customTexLines : CustomStrLines := {}
  customHtmlLines : CustomStrLines := {}
  includeIndex : Bool := false
  indexName : String := ""
  sigDigits : Nat := 3
  thousandsSep : String := ","
  showColumns : Bool := true

/-- First-match association-list lookup (Python dict keys are unique, so
this is `dict.__getitem__` as an `Option`). -/
def assoc {α : Type} : List (String × α) → String → Option α
  | [], _ => none
  | (k, v) :: t, key => if k = key then some v else assoc t key

/-- Python `dict.get(key, default)`. -/
def assocD {α : Type} (l : List (String × α)) (key : String) (d : α) : α :=
  (assoc l key).getD d

/-- Python `dict[key]`: raises `KeyError` when absent. -/
def dictIndex {α : Type} (l : List (String × α)) (key : String) : Except PyError α :=
  match assoc l key with
  | some v => .ok v
  | none => .error (.keyError key)

def exceptOk {α : Type} : Except PyError α → Bool
  | .ok _ => true
  | .error _ => false

/-- State reached after a possibly-failing mutator call: Python leaves the
object untouched when the method raises before mutating (which all the
modelled mutators do). -/
def resultState (s : TableState) : Except PyError TableState → TableState
  | .ok s' => s'
  | .error _ => s

/-- Python `list.remove`: drop the first element satisfying `p`, or `none`
when no element matches (the `ValueError` case). -/
def removeFirstBy {α : Type} (p : α → Bool) : List α → Option (List α)
  | [] => none
  | x :: t => if p x then some t else (removeFirstBy p t).map (fun l => x :: l)

/-- Python `list.pop(i)` with negative-index wrap-around. -/
def pyPop {α : Type} (l : List α) (i : Int) : Except PyError (List α) :=
  let j : Int := if i < 0 then i + l.length else i
  if 0 ≤ j ∧ j < l.length then .ok (l.eraseIdx j.toNat)
  else .error (.indexError "pop index out of range")

/-- Modelled from the spec: `validate_line_location` from the missing
`statstables/utils.py`; the spec fixes the valid insertion points as the
enumerated set used throughout `tables.py`'s docstrings. -/
def validate_line_location (loc : String) : Except PyError Unit :=
  if loc = "top" ∨ loc = "after-multicolumns" ∨ loc = "after-columns" ∨
     loc = "after-body" ∨ loc = "after-footer" then .ok ()
  else .error (.valueError "invalid line location")

/-- Groups of at most three from the front of the (reversed-digit) list,
used for thousands grouping. -/
def chunks3 : List Char → List (List Char)
  | [] => []
  | [a] => [[a]]
  | [a, b] => [[a, b]]
  | a :: b :: c :: rest => [a, b, c] :: chunks3 rest

/-- Insert `sep` every three digits counting from the right, as Python's
`","` / `"_"` format grouping does. -/
def groupDigits (s : String) (sep : String) : String :=
  let revChunks := chunks3 s.toList.reverse
  String.intercalate sep (revChunks.reverse.map (fun ch => String.mk ch.reverse))

def padZeros (s : String) (d : Nat) : String :=
  String.mk (List.replicate (d - s.length) '0') ++ s

/-- Python `f"{x:SEP.Df}"` on an exact fraction: fixed-point with `d`
decimal places (ties rounded to even, as for exactly-representable
floats), thousands grouping by `sep`, and a leading `-` for negative
inputs. -/
def pyFormatFixed (x : PyFloat) (d : Nat) (sep : String) : String :=
  let a := x.num.natAbs * 10 ^ d
  let q := a / x.den
  let r := a % x.den
  let m := if 2 * r < x.den then q else if x.den < 2 * r then q + 1
           else if q % 2 = 0 then q else q + 1
  let ip := m / 10 ^ d
  let fp := m % 10 ^ d
  let ipStr := groupDigits (Nat.repr ip) sep
  let core := if d = 0 then ipStr else ipStr ++ "." ++ padZeros (Nat.repr fp) d
  if x.num < 0 then "-" ++ core else core

/-- Strict order on the fraction model (denominators are positive). -/
def pyFloatLt (a b : PyFloat) : Bool :=
  a.num * b.den < b.num * a.den

/-- Shortest-decimal rendering of a fraction, standing in for Python's
`str(float)` in the significance-levels legend (e.g. `0.1`); no claim
depends on the exact legend text. -/
def showPyFloat (x : PyFloat) : String :=
  match (List.range 18).find? (fun k => x.num.natAbs * 10 ^ k % x.den = 0) with
  | some k =>
      let m := x.num.natAbs * 10 ^ k / x.den
      let core := if k = 0 then Nat.repr m
                  else Nat.repr (m / 10 ^ k) ++ "." ++ padZeros (Nat.repr (m % 10 ^ k)) k
      if x.num < 0 then "-" ++ core else core
  | none => Int.repr x.num ++ "/" ++ Nat.repr x.den

/-- `Table._default_formatter`: numbers through `f"{v:SEP.Df}"`, strings
unchanged (the modelled cell values are exactly numbers and strings). -/
def default_formatter (s : TableState) : CellValue → String
  | .int n => pyFormatFixed ⟨n, 1⟩ s.sigDigits s.thousandsSep
  | .float x => pyFormatFixed x s.sigDigits s.thousandsSep
  | .str v => v

/-- Modelled from the spec: `pstars` from the missing
`statstables/utils.py`; one star per significance threshold the p-value
falls below, matching the legend `* p< 0.1, ** p< 0.05, *** p< 0.01`. -/
def pstars (pval : PyFloat) (plist : List PyFloat) : String :=
  String.mk (List.replicate (plist.countP (fun t => pyFloatLt pval t)) '*')

/-- `Table.add_multicolumns`: defaults an empty span list to
`[self.ncolumns]`, asserts the two length/sum conditions, then appends
the `(columns, spans)` pair. -/
def add_multicolumns (s : TableState) (columns : List String) (spans : List Nat) :
    Except PyError TableState :=
  let spans := if spans.isEmpty then [s.ncolumns] else spans
  if columns.length = spans.length then
    if spans.sum = s.ncolumns then
      .ok { s with multicolumns := s.multicolumns ++ [(columns, spans)] }
    else .error (.assertionError "The sum of spans must equal the number of columns")
  else .error (.assertionError "columns and spans must be the same length")

/-- `Table.custom_formatters`: stores the dict and sets the flag for the
requested axis.  The "will be overwritten" warning is advisory output and
does not change state; note the source never clears the other axis flag.
(The values are functions by typing, so the `callable` assert holds.) -/
def custom_formatters (s : TableState)
    (formatters : List (String × (CellValue → String))) (axis : String) :
    Except PyError TableState :=
  if axis = "columns" then
    .ok { s with columnFormatter := true, formatters := formatters }
  else if axis = "index" then
    .ok { s with indexFormatter := true, formatters := formatters }
  else .error (.valueError "axis must be 'columns' or 'index'")

/-- `Table.add_note`: asserts the alignment code and appends the
`(note, alignment, escape)` triple (`note` is a string by typing). -/
def add_note (s : TableState) (note alignment : String) (esc : Bool) :
    Except PyError TableState :=
  if alignment = "l" ∨ alignment = "c" ∨ alignment = "r" then
    .ok { s with notes := s.notes ++ [(note, alignment, esc)] }
  else .error (.assertionError "alignment must be 'l', 'c', or 'r'")

/-- `Table.remove_note`: by value (`list.remove`, which compares the
argument against the stored triples) or by index (`list.pop`). -/
def remove_note (s : TableState) (note : Option PyObj) (index : Option Int) :
    Except PyError TableState :=
  match note, index with
  | none, none => .error (.valueError "Either 'note' or 'index' must be provided")
  | some x, _ =>
    match removeFirstBy (pyTargetEq x) s.notes with
    | some l => .ok { s with notes := l }
    | none => .error (.valueError "list.remove(x): x not in list")
  | none, some i =>
    match pyPop s.notes i with
    | .ok l => .ok { s with notes := l }
    | .error e => .error e

/-- `Table.add_line`: validates the location, asserts the line width,
then appends the `{"line": ..., "label": ...}` record. -/
def add_line (s : TableState) (line : List String) (loc : String) (label : String) :
    Except PyError TableState :=
  match validate_line_location loc with
  | .error e => .error e
  | .ok _ =>
    if line.length = s.ncolumns then
      .ok { s with customLines :=
              s.customLines.set loc (s.customLines.get loc ++ [⟨line, label⟩]) }
    else .error (.assertionError "Line must have the same number of columns")

/-- `Table.remove_line`: by value (`list.remove`) or by index
(`list.pop`) within the given location's list. -/
def remove_line (s : TableState) (loc : String) (line : Option LineRec)
    (index : Option Int) : Except PyError TableState :=
  match validate_line_location loc with
  | .error e => .error e
  | .ok _ =>
    match line, index with
    | none, none => .error (.valueError "Either 'line' or 'index' must be provided")
    | some x, _ =>
      match removeFirstBy (fun l => decide (l = x)) (s.customLines.get loc) with
      | some l => .ok { s with customLines := s.customLines.set loc l }
      | none => .error (.valueError "list.remove(x): x not in list")
    | none, some i =>
      match pyPop (s.customLines.get loc) i with
      | .ok l => .ok { s with customLines := s.customLines.set loc l }
      | .error e => .error e

/-- `GenerticTable`: a DataFrame (index key plus one cell per column, in
column order) together with the inherited table state; `reset_params`
turns `include_index` on. -/
structure GTable where
  state : TableState
  dfRows : List (String × List CellValue)

/-- The formatter chosen for one cell of `GenerticTable._create_rows`:
the index-axis dict keyed by the row key, else the column-axis dict keyed
by the column key, else the default formatter; dict misses fall back to
the default formatter (`dict.get`). -/
def gRowFormatter (t : GTable) (iname cidx : String) : CellValue → String :=
  if t.state.indexFormatter then
    assocD t.state.formatters iname (default_formatter t.state)
  else if t.state.columnFormatter then
    assocD t.state.formatters cidx (default_formatter t.state)
  else default_formatter t.state

/-- `GenerticTable._create_rows`: one row per DataFrame row, the index
display label first, then each column's formatted value. -/
def create_rows (t : GTable) : List (List String) :=
  t.dfRows.map (fun r =>
    assocD t.state.indexLabels r.1 r.1 ::
      (t.state.columns.zip r.2).map (fun p => gRowFormatter t r.1 p.1 p.2))

/-- `MeanDifferenceTable`: inherited table state plus the variant's own
fields.  The construction-time statistics (grouped means, t-tests) are
outside the modelled core; `meansRows` / `sem` / `pvalues` hold their
results as data. -/
structure MDTable where
  state : TableState
  showN : Bool := true
  showStandardErrors : Bool := true
  pValues : List PyFloat := [⟨1, 10⟩, ⟨1, 20⟩, ⟨1, 100⟩]
  showStars : Bool := true
  grpSizes : List (String × Nat) := []
  meansRows : List (String × List CellValue) := []
  sem : List ((String × String) × PyFloat) := []
  pvalues : List (String × PyFloat) := []

/-- Lookup in `self.sem.loc[row, col]` (a `KeyError` miss is caught by
the caller, so an `Option` suffices). -/
def semLookup (l : List ((String × String) × PyFloat)) (r c : String) : Option PyFloat :=
  (l.find? (fun e => decide (e.1.1 = r ∧ e.1.2 = c))).map (fun e => e.2)

/-- One formatted value of `MeanDifferenceTable._create_rows`: unlike the
generic table, the formatter dict is indexed directly
(`self.formatters[...]`), so a miss raises `KeyError`. -/
def mdFormatVal (m : MDTable) (rkey cidx : String) (v : CellValue) :
    Except PyError String :=
  if m.state.indexFormatter then
    match dictIndex m.state.formatters rkey with
    | .ok f => .ok (f v)
    | .error e => .error e
  else if m.state.columnFormatter then
    match dictIndex m.state.formatters cidx with
    | .ok f => .ok (f v)
    | .error e => .error e
  else .ok (default_formatter m.state v)

/-- The standard-error cell under one body cell:
`f"({se:,.{sig_digits}f})"`, or `""` when the `sem` lookup misses. -/
def mdSemCell (m : MDTable) (rkey cidx : String) : String :=
  match semLookup m.sem rkey cidx with
  | some se => "(" ++ pyFormatFixed se m.state.sigDigits "," ++ ")"
  | none => ""

/-- The significance stars appended to one body cell: `pstars` of the
stored p-value keyed `f"{col}_{row}"`, or `""` when the lookup misses. -/
def mdStars (m : MDTable) (rkey cidx : String) : String :=
  match assoc m.pvalues (cidx ++ "_" ++ rkey) with
  | some p => pstars p m.pValues
  | none => ""

/-- The per-column loop body of `MeanDifferenceTable._create_rows`,
producing the body cells and the standard-error cells of one row. -/
def mdCellsLoop (m : MDTable) (rkey : String) :
    List (String × CellValue) → Except PyError (List String × List String)
  | [] => .ok ([], [])
  | p :: rest =>
    match mdFormatVal m rkey p.1 p.2 with
    | .error e => .error e
    | .ok fval =>
      let fval := if m.showStars then fval ++ mdStars m rkey p.1 else fval
      match mdCellsLoop m rkey rest with
      | .error e => .error e
      | .ok (cells, semCells) =>
        .ok (fval :: cells,
             (if m.showStandardErrors then [mdSemCell m rkey p.1] else []) ++ semCells)

/-- `MeanDifferenceTable._create_rows`: per variable, the labelled body
row followed (when `show_standard_errors`) by the standard-error row. -/
def md_create_rows_go (m : MDTable) :
    List (String × List CellValue) → Except PyError (List (List String))
  | [] => .ok []
  | r :: rest =>
    match mdCellsLoop m r.1 (m.state.columns.zip r.2) with
    | .error e => .error e
    | .ok (cells, semCells) =>
      match md_create_rows_go m rest with
      | .error e => .error e
      | .ok rows =>
        .ok (((assocD m.state.indexLabels r.1 r.1 :: cells) ::
              (if m.showStandardErrors then [("" : String) :: semCells] else [])) ++ rows)

def md_create_rows (m : MDTable) : Except PyError (List (List String)) :=
  md_create_rows_go m m.meansRows

/-- `LatexRenderer._ESCAPE_CHARS`, in source order.  Every pattern in the
source list is a single character, so the patterns are modelled as
characters (Python `str.replace` then replaces each occurrence). -/
def escapeChars : List (Char × String) :=
  [('\\', "\\textbackslash "), ('_', "\\_"), ('%', "\\%"), ('$', "\\$"), ('#', "\\#"),
   ('\x7b', "\\\x7b"), ('\x7d', "\\\x7d"),
   ('~', "\\textasciitilde "), ('^', "\\textasciicircum "), ('&', "\\&")]

/-- Python `text.replace(char, escaped)` for a one-character pattern. -/
def replaceChar (s : String) (ch : Char) (rep : String) : String :=
  String.join (s.toList.map (fun c => if c = ch then rep else String.mk [c]))

/-- `LatexRenderer._escape`: the sequential replacements, backslash
first. -/
def latex_escape (text : String) : String :=
  escapeChars.foldl (fun acc p => replaceChar acc p.1 p.2) text

/-- `LatexRenderer._create_line`. -/
def latex_create_line (includeIndex : Bool) (l : LineRec) : String :=
  (if includeIndex then "  " ++ l.label ++ " & " else "") ++
    String.intercalate " & " l.line ++ "\\\\\n"

/-- `LatexRenderer.generate_body`: each materialized row escaped cell by
cell and joined with `&`, then the `after-body` custom and verbatim
lines. -/
def latex_generate_body (t : GTable) : String :=
  ((create_rows t).foldl
      (fun acc row => acc ++ "  " ++ String.intercalate " & " (row.map latex_escape) ++ " \\\\\n")
      "") ++
    (t.state.customLines.afterBody.foldl
      (fun acc l => acc ++ latex_create_line t.state.includeIndex l) "") ++
    (t.state.customTexLines.afterBody.foldl (fun acc l => acc ++ l) "")

/-- Has `pat` as a substring (Python `in`). -/
def containsSubAux (p : List Char) : List Char → Bool
  | [] => decide (p = [])
  | c :: t => (if (c :: t).take p.length = p then true else containsSubAux p t)

def containsSub (hay pat : String) : Bool :=
  containsSubAux pat.toList hay.toList

/-- Every `%` and `&` in the string is immediately preceded by a
backslash (no unescaped reserved character remains). -/
def noUnescapedAux : Option Char → List Char → Bool
  | _, [] => true
  | prev, c :: t =>
    (if c = '%' ∨ c = '&' then decide (prev = some '\\') else true) &&
      noUnescapedAux (some c) t

def noUnescapedPctAmp (s : String) : Bool :=
  noUnescapedAux none s.toList

/-- The `STParams` entries read by the plain-text renderer
(`parameters.py` defaults: padding 2, `=` / `-` rules, empty border). -/
structure STParams where
  ascii_padding : Nat := 2
  ascii_header_char : String := "="
  ascii_footer_char : String := "-"
  ascii_border_char : String := ""
  ascii_mid_rule_char : String := "-"
deriving Repr, DecidableEq

/-- The size fields `ASCIIRenderer.reset_size_parameters` initializes and
`_get_table_widths` recomputes. -/
structure SizeState where
  maxRowLen : Nat := 0
  maxBodyCellSize : Nat := 0
  maxIndexNameCellSize : Nat := 0
  len : Nat := 0
deriving Repr, DecidableEq

/-- `len(str(cell)) + padding * 2`. -/
def cellSize (padding : Nat) (s : String) : Nat :=
  s.length + padding * 2

/-- The inner cell loop of `_get_table_widths`, threading
`(max_body_cell_size, max_index_name_cell_size, row_len)` through one
row; `i` is the enumerate counter. -/
def measureCells (padding : Nat) (includeIndex : Bool) :
    Nat → List String → Nat × Nat × Nat → Nat × Nat × Nat
  | _, [], acc => acc
  | i, c :: cs, acc =>
    let sz := cellSize padding c
    measureCells padding includeIndex (i + 1) cs
      (max acc.1 sz,
       (if i = 0 ∧ includeIndex then max acc.2.1 sz else acc.2.1),
       acc.2.2 + sz)

/-- The row loop of `_get_table_widths`, threading
`(max_body_cell_size, max_index_name_cell_size, max_row_len)`. -/
def measureRows (padding : Nat) (includeIndex : Bool) :
    List (List String) → Nat × Nat × Nat → Nat × Nat × Nat
  | [], acc => acc
  | r :: rs, acc =>
    let a := measureCells padding includeIndex 0 r (acc.1, acc.2.1, 0)
    measureRows padding includeIndex rs (a.1, a.2.1, max acc.2.2 a.2.2)

/-- The column-label loop of `_get_table_widths`, threading
`(max_body_cell_size, col_len)`.  Note the source measures the raw
column keys (`self.table.columns`), not the renamed display labels. -/
def measureColumns (padding : Nat) : List String → Nat × Nat → Nat × Nat
  | [], acc => acc
  | c :: cs, acc => measureColumns padding cs (max acc.1 (cellSize padding c), acc.2 + cellSize padding c)

/-- `ASCIIRenderer._get_table_widths`: resets the size parameters, scans
all materialized rows (every cell feeds `max_body_cell_size`; cell 0
additionally feeds `max_index_name_cell_size` when the index is shown),
then the index name, then (when `show_columns`) the raw column keys, and
finally fixes `_len`. -/
def get_table_widths (t : GTable) (padding : Nat) : SizeState :=
  let rowAcc := measureRows padding t.state.includeIndex (create_rows t) (0, 0, 0)
  let body0 := rowAcc.1
  let idx0 := rowAcc.2.1
  let mrl0 := rowAcc.2.2
  let idx1 := if t.state.includeIndex then max idx0 (cellSize padding t.state.indexName) else idx0
  let colAcc := if t.state.showColumns then measureColumns padding t.state.columns (body0, 0)
                else (body0, 0)
  let colLen := colAcc.2 + (if t.state.includeIndex then idx1 else 0)
  let mrl1 := if t.state.showColumns then max mrl0 colLen else mrl0
  { maxRowLen := mrl1, maxBodyCellSize := colAcc.1, maxIndexNameCellSize := idx1,
    len := colAcc.1 * t.state.ncolumns + idx1 }

def spaces (n : Nat) : String :=
  String.mk (List.replicate n ' ')

/-- Python `f"{s:^{w}}"`: centered padding to width `w` (extra space on
the right), the string unchanged when it is already at least that wide. -/
def pyCenter (s : String) (w : Nat) : String :=
  if w ≤ s.length then s
  else spaces ((w - s.length) / 2) ++ s ++ spaces (w - s.length - (w - s.length) / 2)

/-- Python `f"{s:<{w}}"`. -/
def pyLeft (s : String) (w : Nat) : String :=
  if w ≤ s.length then s else s ++ spaces (w - s.length)

/-- Python `f"{s:>{w}}"`. -/
def pyRight (s : String) (w : Nat) : String :=
  if w ≤ s.length then s else spaces (w - s.length) ++ s

/-- `ASCIIRenderer.ALIGNMENTS` applied to one note line. -/
def pyAlignFmt (alignment : String) (s : String) (w : Nat) : String :=
  match alignment with
  | "l" => pyLeft s w
  | "c" => pyCenter s w
  | "r" => pyRight s w
  | _ => s

/-- Python `s * n` for strings. -/
def strRepeat (s : String) (n : Nat) : String :=
  String.join (List.replicate n s)

/-- `ASCIIRenderer.generate_header`. -/
def ascii_generate_header (t : GTable) (P : STParams) (sz : SizeState) : String :=
  let borderLen := P.ascii_border_char.length
  let s0 := strRepeat P.ascii_header_char (sz.len + 2 * borderLen) ++ "\n"
  let s1 := t.state.multicolumns.foldl
    (fun acc g =>
      acc ++ P.ascii_border_char ++
        (if t.state.includeIndex then spaces sz.maxIndexNameCellSize else "") ++
        ((g.1.zip g.2).foldl (fun a p => a ++ pyCenter p.1 (sz.maxBodyCellSize * p.2)) "") ++
        P.ascii_border_char ++ "\n") s0
  if t.state.showColumns then
    s1 ++ P.ascii_border_char ++
      (if t.state.includeIndex then pyCenter t.state.indexName sz.maxIndexNameCellSize else "") ++
      (t.state.columns.foldl
        (fun a c => a ++ pyCenter (assocD t.state.columnLabels c c) sz.maxBodyCellSize) "") ++
      P.ascii_border_char ++ "\n" ++
      P.ascii_border_char ++ strRepeat P.ascii_mid_rule_char sz.len ++ P.ascii_border_char ++ "\n"
  else s1

/-- The padded cells of `ASCIIRenderer.generate_body`: cell 0 is padded
to the index width when the index is shown, every other cell to the
uniform body width. -/
def ascii_body_cells (t : GTable) (sz : SizeState) : List (List String) :=
  (create_rows t).map (fun row =>
    row.enum.map (fun x =>
      pyCenter x.2 (if x.1 = 0 ∧ t.state.includeIndex then sz.maxIndexNameCellSize
                    else sz.maxBodyCellSize)))

/-- `ASCIIRenderer.generate_body`. -/
def ascii_generate_body (t : GTable) (P : STParams) (sz : SizeState) : String :=
  (ascii_body_cells t sz).foldl
    (fun acc row => acc ++ P.ascii_border_char ++ String.join row ++ P.ascii_border_char ++ "\n")
    ""

/-- `ASCIIRenderer.generate_footer`. -/
def ascii_generate_footer (t : GTable) (P : STParams) (sz : SizeState) : String :=
  let borderLen := P.ascii_border_char.length
  t.state.notes.foldl
    (fun acc n => acc ++ "\n" ++ pyAlignFmt n.2.1 n.1 sz.len)
    (strRepeat P.ascii_footer_char (sz.len + 2 * borderLen))

/-- An `ASCIIRenderer` object: the table, the padding taken from
`STParams` at construction, and the mutable size parameters
(zero-initialized by `reset_size_parameters`). -/
structure AsciiRenderer where
  table : GTable
  padding : Nat
  sizes : SizeState := {}

/-- `ASCIIRenderer.render`: recompute the size parameters from scratch
(`_get_table_widths` starts with `reset_size_parameters`), then emit
header, body and footer. -/
def ascii_render (r : AsciiRenderer) (P : STParams) : String × AsciiRenderer :=
  let sz := get_table_widths r.table r.padding
  (ascii_generate_header r.table P sz ++ ascii_generate_body r.table P sz ++
     ascii_generate_footer r.table P sz,
   { r with sizes := sz })

/-- The group-size line injected by `MeanDifferenceTable._render`:
`f"N={grp_sizes[c]:,}"` per column when present, else `""`. -/
def mdInjectedLine (m : MDTable) : List String :=
  m.state.columns.map (fun c =>
    match assoc m.grpSizes c with
    | some n => "N=" ++ groupDigits (Nat.repr n) ","
    | none => "")

/-- `sorted(p_values, reverse=True)` (stable descending sort). -/
def sortedDesc (l : List PyFloat) : List PyFloat :=
  List.insertionSort (fun a b => ¬ pyFloatLt a b) l

/-- The significance-levels note injected by
`MeanDifferenceTable._render` (`p$<$` in the LaTeX variant). -/
def mdSigNote (m : MDTable) (isLatex : Bool) : String :=
  let p := if isLatex then "p$<$" else "p<"
  "Significance levels: " ++
    String.intercalate ", "
      ((sortedDesc m.pValues).enum.map (fun e =>
        String.mk (List.replicate (e.1 + 1) '*') ++ " " ++ p ++ " " ++ showPyFloat e.2))

/-- `MeanDifferenceTable._render`, the decorator around `render_latex` /
`render_html`: inject the group-size line (when `show_n`) and the
significance note (when `show_stars`), call the wrapped render, then pop
the injected line and note.  The rollback runs only after a normal
return of the inner render — there is no `try`/`finally` — so a raising
inner render leaves the decorations in place; the pair returned is
(result, table afterwards). -/
def md_render (inner : MDTable → Except PyError String) (isLatex : Bool) (t : MDTable) :
    Except PyError String × MDTable :=
  match (if t.showN then add_line t.state (mdInjectedLine t) "after-columns" "" else .ok t.state) with
  | .error e => (.error e, t)
  | .ok st1 =>
    match (if t.showStars then add_note st1 (mdSigNote t isLatex) "r" true else .ok st1) with
    | .error e => (.error e, { t with state := st1 })
    | .ok st2 =>
      let t2 := { t with state := st2 }
      match inner t2 with
      | .error e => (.error e, t2)
      | .ok out =>
        match (if t.showN then remove_line st2 "after-columns" none (some (-1)) else .ok st2) with
        | .error e => (.error e, t2)
        | .ok st3 =>
          match (if t.showStars then remove_note st3 none (some (-1)) else .ok st3) with
          | .error e => (.error e, { t with state := st3 })
          | .ok st4 => (.ok out, { t with state := st4 })

/-- The measure the spec's words ascribe to `max_body_cell_size`: the
maximum over every non-index cell of the materialized rows and every
column header display label of `len(content) + 2 * padding`.  (The
implementation in `_get_table_widths` is compared against this.) -/
def spec_max_body_cell_size (t : GTable) (padding : Nat) : Nat :=
  (((create_rows t).map (fun row => if t.state.includeIndex then row.drop 1 else row)).flatten ++
      t.state.columns.map (fun c => assocD t.state.columnLabels c c)).foldl
    (fun a s => max a (cellSize padding s)) 0

/-- C1 counterexample table: one short column key, one row whose index
cell is far longer than any body cell. -/
def gcx1 : GTable :=
  { state := { ncolumns := 1, columns := ["a"], includeIndex := true },
    dfRows := [("longindexname1234567890!", [.str "x"])] }

/-- The spec's width-uniformity example: column keys of lengths 1 and 10,
short body and index cells. -/
def gex : GTable :=
  { state := { ncolumns := 2, columns := ["a", "abcdefghij"], includeIndex := true },
    dfRows := [("r", [.str "x", .str "y"])] }

/-- A 1x1 generic table used for the formatter-axis evaluation. -/
def g3 : GTable :=
  { state := { ncolumns := 1, columns := ["c"], includeIndex := true },
    dfRows := [("r", [.float ⟨2, 1⟩])] }

/-- Index-axis formatter dict keyed by the row key of `g3`. -/
def f3index : List (String × (CellValue → String)) :=
  [("r", fun _ => "IDX")]

/-- Column-axis formatter dict keyed by the column key of `g3`. -/
def f3columns : List (String × (CellValue → String)) :=
  [("c", fun _ => "COL")]

/-- The state of `g3` after `custom_formatters(f3index, axis="index")`
followed by `custom_formatters(f3columns, axis="columns")`. -/
def s3both : TableState :=
  resultState (resultState g3.state (custom_formatters g3.state f3index "index"))
    (custom_formatters (resultState g3.state (custom_formatters g3.state f3index "index"))
      f3columns "columns")

def g3both : GTable :=
  { g3 with state := s3both }

/-- A mean-difference table whose column-axis formatter dict misses the
column `"Y"` (as the repository's own test does with a one-key dict). -/
def md4 : MDTable :=
  { state := { ncolumns := 2, columns := ["X", "Y"], includeIndex := true,
               columnFormatter := true, formatters := [("X", fun _ => "fx")] },
    meansRows := [("A", [.float ⟨1, 1⟩, .float ⟨2, 1⟩])],
    grpSizes := [("X", 3), ("Y", 4)] }

/-- The inner render of the specialized variant, reduced to the part that
can raise: materializing the rows (`generate_body` calls
`_create_rows`). -/
def innerCreateRows (t : MDTable) : Except PyError String :=
  match md_create_rows t with
  | .ok _ => .ok ""
  | .error e => .error e

/-- A well-formed mean-difference table on which rendering succeeds. -/
def md7w : MDTable :=
  { state := { ncolumns := 1, columns := ["X"], includeIndex := true },
    meansRows := [("A", [.int 1])],
    grpSizes := [("X", 2)],
    sem := [(("A", "X"), ⟨1, 2⟩)],
    pvalues := [("X_A", ⟨1, 50⟩)] }

/-- A generic table configured with `include_index = False`. -/
def g5cx : GTable :=
  { state := { ncolumns := 1, columns := ["c1"], includeIndex := false },
    dfRows := [("r", [.str "x"])] }

/-- A 1x1 generic table whose only cell holds the literal text
`50% & rising`. -/
def g9 : GTable :=
  { state := { ncolumns := 1, columns := ["c"], includeIndex := true },
    dfRows := [("r0", [.str "50% & rising"])] }

/-- A table state with the default formatting configuration
(`sig_digits = 3`, `thousands_sep = ","`). -/
def s8 : TableState :=
  { ncolumns := 0, columns := [] }

/-- A one-column table state for the multicolumn registration example. -/
def s6 : TableState :=
  { ncolumns := 1, columns := ["a"] }

lemma spaces_length (n : Nat) : (spaces n).length = n := by
  simp [spaces]

lemma pyCenter_length (s : String) (w : Nat) (h : s.length ≤ w) :
    (pyCenter s w).length = w := by
  unfold pyCenter
  split
  · omega
  · simp [String.length_append, spaces_length]
    omega

lemma foldl_max_init {α : Type} (f : α → Nat) :
    ∀ (l : List α) (a : Nat), a ≤ l.foldl (fun acc x => max acc (f x)) a
  | [], a => le_refl a
  | x :: t, a => le_trans (Nat.le_max_left a (f x)) (foldl_max_init f t (max a (f x)))

lemma foldl_max_mem {α : Type} (f : α → Nat) :
    ∀ (l : List α) (a : Nat) (x : α), x ∈ l → f x ≤ l.foldl (fun acc y => max acc (f y)) a
  | [], _, _, h => absurd h (List.not_mem_nil _)
  | y :: t, a, x, h => by
    rcases List.mem_cons.1 h with h1 | h2
    · subst h1
      exact le_trans (Nat.le_max_right a (f x)) (foldl_max_init f t (max a (f x)))
    · exact foldl_max_mem f t (max a (f y)) x h2

lemma measureCells_fst (p : Nat) (inc : Bool) :
    ∀ (cs : List String) (i : Nat) (acc : Nat × Nat × Nat),
      (measureCells p inc i cs acc).1 = cs.foldl (fun a c => max a (cellSize p c)) acc.1
  | [], _, _ => rfl
  | c :: cs, i, acc => by
    rw [measureCells, measureCells_fst p inc cs (i + 1)]
    rfl

lemma measureRows_fst (p : Nat) (inc : Bool) :
    ∀ (rows : List (List String)) (acc : Nat × Nat × Nat),
      (measureRows p inc rows acc).1
        = rows.flatten.foldl (fun a c => max a (cellSize p c)) acc.1
  | [], _ => rfl
  | r :: rs, acc => by
    rw [measureRows, measureRows_fst p inc rs, measureCells_fst, List.flatten_cons,
      List.foldl_append]

lemma measureColumns_fst (p : Nat) :
    ∀ (cs : List String) (acc : Nat × Nat),
      (measureColumns p cs acc).1 = cs.foldl (fun a c => max a (cellSize p c)) acc.1
  | [], _ => rfl
  | c :: cs, acc => by
    rw [measureColumns, measureColumns_fst p cs]
    rfl

lemma get_table_widths_body (t : GTable) (p : Nat) (h : t.state.showColumns = true) :
    (get_table_widths t p).maxBodyCellSize
      = ((create_rows t).flatten ++ t.state.columns).foldl
          (fun a s => max a (cellSize p s)) 0 := by
  simp only [get_table_widths, h, if_true]
  rw [measureColumns_fst, measureRows_fst, List.foldl_append]

lemma mem_of_mem_enumFrom {α : Type} :
    ∀ (l : List α) (n : Nat) (x : Nat × α), x ∈ l.enumFrom n → x.2 ∈ l
  | [], _, _, h => absurd h (List.not_mem_nil _)
  | a :: t, n, x, h => by
    rcases List.mem_cons.1 h with h1 | h2
    · subst h1
      exact List.mem_cons_self _ _
    · exact List.mem_cons_of_mem _ (mem_of_mem_enumFrom t (n + 1) x h2)

lemma mem_of_mem_enum {α : Type} (l : List α) (x : Nat × α) (h : x ∈ l.enum) : x.2 ∈ l :=
  mem_of_mem_enumFrom l 0 x h

/-- C1: the claim states that `_get_table_widths` computes
`max_body_cell_size` as the maximum of `len + 2*padding` over the
non-index cells and the column header labels only.  False: the cell loop
feeds every cell of every materialized row into `max_body_cell_size`,
index cells included.  On `gcx1` (index cell of length 24, all other
content of length 1, padding 2) the implementation yields 28 while the
claimed measure yields 5. -/
theorem c1_counterexample_index_cell_measured :
    (get_table_widths gcx1 2).maxBodyCellSize = 28 ∧
      spec_max_body_cell_size gcx1 2 = 5 ∧
      (get_table_widths gcx1 2).maxBodyCellSize ≠ spec_max_body_cell_size gcx1 2 := by
  decide

/-- C1 (amended): when `show_columns` is on, `max_body_cell_size` is the
maximum of `len(content) + 2*padding` over every cell of the
materialized rows (index cells included) and every raw column key; and
every non-index body cell rendered by `generate_body` (which pads cell
`i` of each row with `f"{cell:^{max_body_cell_size}}"` for `i ≠ 0`, as
`ascii_body_cells` records) is exactly `max_body_cell_size` characters
wide.  On the spec's example (column keys of lengths 1 and 10, padding
2, all other content shorter) the measure is 14 and every body cell is
rendered 14 wide. -/
theorem c1_amended_uniform_body_width (t : GTable) (p : Nat)
    (h : t.state.showColumns = true) :
    (get_table_widths t p).maxBodyCellSize
        = ((create_rows t).flatten ++ t.state.columns).foldl
            (fun a s => max a (cellSize p s)) 0 ∧
      ∀ row ∈ create_rows t, ∀ x ∈ row.enum, ¬(x.1 = 0 ∧ t.state.includeIndex = true) →
        (pyCenter x.2 (get_table_widths t p).maxBodyCellSize).length
          = (get_table_widths t p).maxBodyCellSize := by
  refine ⟨get_table_widths_body t p h, ?_⟩
  intro row hrow x hx _
  apply pyCenter_length
  have hmem : x.2 ∈ (create_rows t).flatten ++ t.state.columns :=
    List.mem_append_left _ (List.mem_flatten.2 ⟨row, hrow, mem_of_mem_enum row x hx⟩)
  have hb := foldl_max_mem (cellSize p) ((create_rows t).flatten ++ t.state.columns) 0 x.2 hmem
  rw [get_table_widths_body t p h]
  calc x.2.length ≤ cellSize p x.2 := by simp [cellSize]
    _ ≤ _ := hb

/-- C1 witness: the amended theorem applied to the spec's
width-uniformity example table (column key lengths 1 and 10, padding 2),
where the measured width is 14. -/
theorem c1_width_witness :
    gex.state.showColumns = true ∧
      (get_table_widths gex 2).maxBodyCellSize
        = ((create_rows gex).flatten ++ gex.state.columns).foldl
            (fun a s => max a (cellSize 2 s)) 0 ∧
      (get_table_widths gex 2).maxBodyCellSize = 14 :=
  ⟨rfl, (c1_amended_uniform_body_width gex 2 rfl).1, by decide⟩

lemma mdCellsLoop_lengths (m : MDTable) (rkey : String) :
    ∀ (pairs : List (String × CellValue)) (cells semCells : List String),
      mdCellsLoop m rkey pairs = .ok (cells, semCells) →
      cells.length = pairs.length ∧
        semCells.length = (if m.showStandardErrors then pairs.length else 0)
  | [], cells, semCells, h => by
    simp only [mdCellsLoop, Except.ok.injEq, Prod.mk.injEq] at h
    rcases h with ⟨h1, h2⟩
    subst h1
    subst h2
    simp
  | p :: rest, cells, semCells, h => by
    rw [mdCellsLoop] at h
    rcases hf : mdFormatVal m rkey p.1 p.2 with e | fval
    all_goals rw [hf] at h
    · exact absurd h (by simp)
    · rcases hr : mdCellsLoop m rkey rest with e | cs
      all_goals rw [hr] at h
      · exact absurd h (by simp)
      · simp only [Except.ok.injEq, Prod.mk.injEq] at h
        rcases h with ⟨h1, h2⟩
        subst h1
        subst h2
        rcases mdCellsLoop_lengths m rkey rest cs.1 cs.2 (by rw [hr]) with ⟨e1, e2⟩
        constructor
        · simp [e1]
        · by_cases hse : m.showStandardErrors
          · simp [hse] at e2 ⊢
            omega
          · simp [hse] at e2 ⊢
            exact e2

lemma md_create_rows_go_lengths (m : MDTable)
    (hcols : m.state.columns.length = m.state.ncolumns) :
    ∀ (rs : List (String × List CellValue)) (rows : List (List String)),
      (∀ r ∈ rs, r.2.length = m.state.ncolumns) →
      md_create_rows_go m rs = .ok rows →
      ∀ row ∈ rows, row.length = m.state.ncolumns + 1
  | [], rows, _, h => by
    simp only [md_create_rows_go, Except.ok.injEq] at h
    subst h
    intro row hrow
    exact absurd hrow (List.not_mem_nil _)
  | r :: rest, rows, hr, h => by
    rw [md_create_rows_go] at h
    rcases hc : mdCellsLoop m r.1 (m.state.columns.zip r.2) with e | cs
    all_goals rw [hc] at h
    · exact absurd h (by simp)
    · rcases hg : md_create_rows_go m rest with e | rows'
      all_goals rw [hg] at h
      · exact absurd h (by simp)
      · simp only [Except.ok.injEq] at h
        subst h
        intro row hrow
        have hzip : (m.state.columns.zip r.2).length = m.state.ncolumns := by
          rw [List.length_zip, hcols, hr r (List.mem_cons_self _ _)]
          exact Nat.min_self _
        rcases mdCellsLoop_lengths m r.1 (m.state.columns.zip r.2) cs.1 cs.2
          (by rw [hc]) with ⟨e1, e2⟩
        rcases List.mem_append.1 hrow with h1 | h2
        · rcases List.mem_cons.1 h1 with h3 | h4
          · subst h3
            simp [e1, hzip]
          · by_cases hse : m.showStandardErrors
            · simp [hse] at h4 e2
              subst h4
              simp only [List.length_cons, e2]
              rw [hcols, hr r (List.mem_cons_self _ _), Nat.min_self]
            · simp [hse] at h4
        · exact md_create_rows_go_lengths m hcols rest rows'
            (fun x hx => hr x (List.mem_cons_of_mem _ hx)) hg row h2

/-- C5: the claim states that materialized rows have length
`ncolumns + 1` when `include_index` is true and `ncolumns` when it is
false.  False for the second half: `_create_rows` always prepends the
index label cell, regardless of `include_index`.  On `g5cx`
(`include_index = False`, one column) the single materialized row has
length 2, not 1. -/
theorem c5_counterexample_row_length :
    g5cx.state.includeIndex = false ∧ g5cx.state.ncolumns = 1 ∧
      (create_rows g5cx).map List.length = [2] := by
  decide

/-- C5 (amended): for every table whose DataFrame is rectangular
(`columns` of length `ncolumns`, every row with `ncolumns` cells), every
materialized row — of the generic table and of the mean-difference
table, standard-error rows included — has length exactly
`ncolumns + 1`, independent of `include_index`. -/
theorem c5_amended_row_width (t : GTable) (m : MDTable) (rows : List (List String))
    (ht1 : t.state.columns.length = t.state.ncolumns)
    (ht2 : ∀ r ∈ t.dfRows, r.2.length = t.state.ncolumns)
    (hm1 : m.state.columns.length = m.state.ncolumns)
    (hm2 : ∀ r ∈ m.meansRows, r.2.length = m.state.ncolumns)
    (hok : md_create_rows m = .ok rows) :
    (∀ row ∈ create_rows t, row.length = t.state.ncolumns + 1) ∧
      ∀ row ∈ rows, row.length = m.state.ncolumns + 1 := by
  constructor
  · intro row hrow
    rcases List.mem_map.1 hrow with ⟨r, hr, hmap⟩
    subst hmap
    simp only [List.length_cons, List.length_map, List.length_zip, ht1, ht2 r hr]
    simp
  · exact md_create_rows_go_lengths m hm1 m.meansRows rows hm2 hok

/-- C5 witness: the amended theorem applied to the concrete generic
table `g5cx` (whose `include_index` is off) and the concrete
mean-difference table `md7w`. -/
theorem c5_row_width_witness :
    md_create_rows md7w = .ok [["A", "1.000**"], ["", "(0.500)"]] ∧
      (∀ row ∈ create_rows g5cx, row.length = g5cx.state.ncolumns + 1) ∧
      ∀ row ∈ [["A", "1.000**"], ["", "(0.500)"]], row.length = md7w.state.ncolumns + 1 :=
  ⟨rfl,
   c5_amended_row_width g5cx md7w [["A", "1.000**"], ["", "(0.500)"]]
     (by decide) (by decide) (by decide) (by decide) rfl⟩

/-- C6: the claim states `add_multicolumns(columns, spans)` succeeds only
when `len(columns) == len(spans)` and `sum(spans) == ncolumns`.  False
for an empty span list: the source first replaces a falsy `spans` by
`[self.ncolumns]`, so `add_multicolumns(["a"], [])` succeeds on a
one-column table even though both stated conditions fail for the passed
arguments. -/
theorem c6_counterexample_empty_spans :
    exceptOk (add_multicolumns s6 ["a"] []) = true ∧
      (resultState s6 (add_multicolumns s6 ["a"] [])).multicolumns = [(["a"], [1])] ∧
      ¬(["a"].length = ([] : List Nat).length) ∧
      ¬(([] : List Nat).sum = s6.ncolumns) := by
  refine ⟨by decide, rfl, by decide, by decide⟩

/-- C6 (amended): after the source's defaulting of an empty span list to
`[ncolumns]`, registration succeeds exactly when the two conditions hold
of the effective spans; a successful call appends exactly the one group
(a failing call returns the error at registration time, with the
`multicolumns` list unchanged by construction); and registration
preserves the invariant that every registered group's spans sum to
`ncolumns`. -/
theorem c6_amended_span_invariant (s : TableState) (cols : List String) (spans : List Nat) :
    (exceptOk (add_multicolumns s cols spans) = true ↔
        cols.length = (if spans.isEmpty then [s.ncolumns] else spans).length ∧
          (if spans.isEmpty then [s.ncolumns] else spans).sum = s.ncolumns) ∧
      (∀ s', add_multicolumns s cols spans = .ok s' →
        s'.multicolumns
          = s.multicolumns ++ [(cols, if spans.isEmpty then [s.ncolumns] else spans)]) ∧
      ((∀ g ∈ s.multicolumns, g.2.sum = s.ncolumns) →
        ∀ s', add_multicolumns s cols spans = .ok s' →
          ∀ g ∈ s'.multicolumns, g.2.sum = s.ncolumns) := by
  simp only [add_multicolumns]
  by_cases h1 : cols.length = (if spans.isEmpty then [s.ncolumns] else spans).length
  · rw [if_pos h1]
    by_cases h2 : (if spans.isEmpty then [s.ncolumns] else spans).sum = s.ncolumns
    · rw [if_pos h2]
      refine ⟨⟨fun _ => ⟨h1, h2⟩, fun _ => rfl⟩, fun s' hs' => ?_, fun hinv s' hs' => ?_⟩
      · cases hs'
        rfl
      · cases hs'
        intro g hg
        rcases List.mem_append.1 hg with hg1 | hg2
        · exact hinv g hg1
        · rw [List.mem_singleton.1 hg2]
          exact h2
    · rw [if_neg h2]
      exact ⟨⟨fun hfalse => Bool.noConfusion hfalse, fun hab => absurd hab.2 h2⟩,
             fun s' hs' => Except.noConfusion hs',
             fun _ s' hs' => Except.noConfusion hs'⟩
  · rw [if_neg h1]
    exact ⟨⟨fun hfalse => Bool.noConfusion hfalse, fun hab => absurd hab.1 h1⟩,
           fun s' hs' => Except.noConfusion hs',
           fun _ s' hs' => Except.noConfusion hs'⟩

/-- C6 witness: the amended theorem applied to a registration on `s6`
that satisfies both conditions. -/
theorem c6_span_witness :
    exceptOk (add_multicolumns s6 ["a"] [1]) = true ↔
      (["a"] : List String).length = (if ([1] : List Nat).isEmpty then [s6.ncolumns] else [1]).length ∧
        (if ([1] : List Nat).isEmpty then [s6.ncolumns] else [1]).sum = s6.ncolumns :=
  (c6_amended_span_invariant s6 ["a"] [1]).1

/-- C8: the default formatter is a deterministic function of the value
and the table's formatting configuration; with `sig_digits = 3` and
thousands separator `","` it maps 1234.5 (the fraction 2469/2) to
`"1,234.500"`, and maps any string, e.g. `"abc"`, to itself unchanged. -/
theorem c8_default_formatter :
    default_formatter s8 (.float ⟨2469, 2⟩) = "1,234.500" ∧
      default_formatter s8 (.str "abc") = "abc" := by
  constructor
  · decide
  · rfl

/-- C9: `LatexRenderer._escape` maps the literal cell text
`50% & rising` to `50\% \& rising`; the typeset body of a table holding
that cell (every header/body cell passes through `_escape` in
`generate_body` / `generate_header`) contains that escaped substring;
and in the escaped cell every remaining `%` and `&` is preceded by a
backslash. -/
theorem c9_latex_escaping :
    latex_escape "50% & rising" = "50\\% \\& rising" ∧
      containsSub (latex_generate_body g9) "50\\% \\& rising" = true ∧
      noUnescapedPctAmp (latex_escape "50% & rising") = true := by
  refine ⟨by decide, by decide, by decide⟩

/-- C3: the claim (and the method's docstring) says the later
`custom_formatters` call wins, so after setting an index-axis dict `f1`
and then a column-axis dict `f2`, lookups should use the column key in
`f2`.  In fact `custom_formatters(axis="columns")` never clears
`index_formatter`, and `_create_rows` tests `index_formatter` first: on
`g3` the cell is looked up in `f2` under the row key `"r"`, misses, and
falls back to the default formatter (`"2.000"`), instead of using
`f2["c"]` (`"COL"`). -/
theorem c3_last_call_does_not_win :
    s3both.indexFormatter = true ∧ s3both.columnFormatter = true ∧
      create_rows g3both = [["r", "2.000"]] ∧
      create_rows g3both ≠ [["r", "COL"]] := by
  refine ⟨rfl, rfl, by decide, by decide⟩

/-- C4: the claim says a formatter-dict miss falls back to the default
formatter and never raises, for every table variant including the
mean-difference table.  `MeanDifferenceTable._create_rows` indexes the
dict directly (`self.formatters[...]`), so on `md4` (column-axis dict
containing only `"X"`, columns `["X", "Y"]`) materialization raises
`KeyError("Y")` — even though the repository's own test renders a
mean-difference table with a one-key custom formatter dict. -/
theorem c4_mean_difference_keyerror :
    md_create_rows md4 = .error (.keyError "Y") := by
  rfl

lemma eraseIdx_concat {α : Type} : ∀ (l : List α) (x : α), (l ++ [x]).eraseIdx l.length = l
  | [], _ => rfl
  | a :: t, x => congrArg (List.cons a) (eraseIdx_concat t x)

lemma pyPop_last {α : Type} (l : List α) (x : α) : pyPop (l ++ [x]) (-1) = .ok l := by
  have hlen : (l ++ [x]).length = l.length + 1 := by simp
  have hj : (if (-1 : Int) < 0 then (-1 : Int) + ((l ++ [x]).length : Int) else (-1 : Int))
      = (l.length : Int) := by
    rw [if_pos (by decide), hlen]
    push_cast
    ring
  simp only [pyPop, hj]
  rw [if_pos ⟨Int.natCast_nonneg _, by rw [hlen]; push_cast; omega⟩]
  rw [Int.toNat_natCast, eraseIdx_concat]

lemma add_line_ac_inv (s : TableState) (l : List String) (lab : String) (s' : TableState)
    (h : add_line s l "after-columns" lab = .ok s') :
    s' = { s with customLines :=
            { s.customLines with afterColumns := s.customLines.afterColumns ++ [⟨l, lab⟩] } } := by
  have e : add_line s l "after-columns" lab
      = if l.length = s.ncolumns then
          .ok { s with customLines :=
                  { s.customLines with afterColumns := s.customLines.afterColumns ++ [⟨l, lab⟩] } }
        else .error (.assertionError "Line must have the same number of columns") := rfl
  rw [e] at h
  split at h
  · cases h
    rfl
  · exact absurd h (by simp)

lemma add_note_r_eq (s : TableState) (n : String) :
    add_note s n "r" true = .ok { s with notes := s.notes ++ [(n, "r", true)] } := rfl

lemma remove_line_ac_pop (s : TableState) (i : Int) :
    remove_line s "after-columns" none (some i)
      = match pyPop s.customLines.afterColumns i with
        | .ok l => .ok { s with customLines := { s.customLines with afterColumns := l } }
        | .error e => .error e := rfl

lemma remove_note_pop (s : TableState) (i : Int) :
    remove_note s none (some i)
      = match pyPop s.notes i with
        | .ok l => .ok { s with notes := l }
        | .error e => .error e := rfl

/-- On a normal return of the wrapped render, `MeanDifferenceTable._render`
returns the table to exactly its pre-call state: the injected group-size
line and significance note are popped again. -/
lemma md_render_ok_state (inner : MDTable → Except PyError String) (il : Bool) (t : MDTable)
    (out : String) (h : (md_render inner il t).1 = .ok out) :
    (md_render inner il t).2 = t := by
  by_cases hN : t.showN
  · by_cases hS : t.showStars
    · simp only [md_render] at h ⊢
      rw [if_pos hN] at h ⊢
      rcases hA : add_line t.state (mdInjectedLine t) "after-columns" "" with e | st1
      · simp only [hA] at h
        simp at h
      · simp only [hA] at h ⊢
        rw [if_pos hS] at h ⊢
        rcases hB : add_note st1 (mdSigNote t il) "r" true with e | st2
        · simp only [hB] at h
          simp at h
        · simp only [hB] at h ⊢
          rcases hI : inner { t with state := st2 } with e | out'
          · simp only [hI] at h
            simp at h
          · simp only [hI] at h ⊢
            have e1 := add_line_ac_inv _ _ _ _ hA
            subst e1
            rw [add_note_r_eq] at hB
            cases hB
            rw [if_pos hN, remove_line_ac_pop]
            simp only [pyPop_last]
            rw [if_pos hS, remove_note_pop]
            simp only [pyPop_last]
    · have hSf : (t.showStars = true) = False := by simp [hS]
      simp only [md_render, hSf, if_false] at h ⊢
      rw [if_pos hN] at h ⊢
      rcases hA : add_line t.state (mdInjectedLine t) "after-columns" "" with e | st1
      · simp only [hA] at h
        simp at h
      · simp only [hA] at h ⊢
        rcases hI : inner { t with state := st1 } with e | out'
        · simp only [hI] at h
          simp at h
        · simp only [hI] at h ⊢
          have e1 := add_line_ac_inv _ _ _ _ hA
          subst e1
          rw [if_pos hN, remove_line_ac_pop]
          simp only [pyPop_last]
  · have hNf : (t.showN = true) = False := by simp [hN]
    by_cases hS : t.showStars
    · simp only [md_render, hNf, if_false] at h ⊢
      rw [if_pos hS] at h ⊢
      rcases hB : add_note t.state (mdSigNote t il) "r" true with e | st2
      · simp only [hB] at h
        simp at h
      · simp only [hB] at h ⊢
        rcases hI : inner { t with state := st2 } with e | out'
        · simp only [hI] at h
          simp at h
        · simp only [hI] at h ⊢
          rw [add_note_r_eq] at hB
          cases hB
          rw [if_pos hS, remove_note_pop]
          simp only [pyPop_last]
    · have hSf : (t.showStars = true) = False := by simp [hS]
      simp only [md_render, hNf, hSf, if_false] at h ⊢
      rcases hI : inner t with e | out'
      · simp only [hI] at h
        simp at h
      · simp only [hI] at h ⊢

lemma removeFirstBy_false {α : Type} (p : α → Bool) (hp : ∀ x, p x = false) :
    ∀ l : List α, removeFirstBy p l = none
  | [] => rfl
  | x :: t => by simp [removeFirstBy, hp x, removeFirstBy_false p hp t]

lemma add_note_inv (s : TableState) (n a : String) (e : Bool) (s1 : TableState)
    (h : add_note s n a e = .ok s1) : s1 = { s with notes := s.notes ++ [(n, a, e)] } := by
  unfold add_note at h
  split at h
  · cases h
    rfl
  · exact absurd h (by simp)

/-- C2: the claim states the injected decorations are rolled back whether
the inner render returns or raises.  False on the failure path: the
wrapper has no `try`/`finally`, so when the wrapped render raises (here:
the `KeyError` that `md4`'s row materialization actually raises, see
`MeanDifferenceTable._create_rows`), the injected significance note and
group-size line are still present afterwards. -/
theorem c2_counterexample_no_rollback_on_raise :
    exceptOk (md_render innerCreateRows false md4).1 = false ∧
      (md_render innerCreateRows false md4).2.state.notes ≠ md4.state.notes ∧
      (md_render innerCreateRows false md4).2.state.customLines ≠ md4.state.customLines := by
  refine ⟨rfl, by decide, by decide⟩

/-- C2 (amended): after a specialized-variant render call that returns
normally, the table's notes list and all three custom-line collections
are identical by value to their state immediately before the call; on a
raising inner render the injected decorations remain (see the
counterexample). -/
theorem c2_amended_rollback_on_success (inner : MDTable → Except PyError String)
    (il : Bool) (t : MDTable) (out : String) (h : (md_render inner il t).1 = .ok out) :
    (md_render inner il t).2.state.notes = t.state.notes ∧
      (md_render inner il t).2.state.customLines = t.state.customLines ∧
      (md_render inner il t).2.state.customTexLines = t.state.customTexLines ∧
      (md_render inner il t).2.state.customHtmlLines = t.state.customHtmlLines := by
  rw [md_render_ok_state inner il t out h]
  exact ⟨rfl, rfl, rfl, rfl⟩

/-- C2 witness: the amended theorem applied to the concrete
mean-difference table `md7w` with an inner render that returns. -/
theorem c2_rollback_witness :
    (md_render (fun _ => .ok "body") false md7w).2.state.notes = md7w.state.notes ∧
      (md_render (fun _ => .ok "body") false md7w).2.state.customLines
        = md7w.state.customLines ∧
      (md_render (fun _ => .ok "body") false md7w).2.state.customTexLines
        = md7w.state.customTexLines ∧
      (md_render (fun _ => .ok "body") false md7w).2.state.customHtmlLines
        = md7w.state.customHtmlLines :=
  c2_amended_rollback_on_success (fun _ => .ok "body") false md7w "body" rfl

/-- C7: rendering twice with no intervening mutation yields identical
output.  Plain text: `render` recomputes the size parameters from
scratch, so a second `render` on the same renderer object (whose `sizes`
were overwritten by the first call) emits the same string.
Mean-difference variant: a first call that returns normally restores the
table exactly (decorations injected and popped), so the second call is
the same computation on the same state, byte for byte. -/
theorem c7_render_idempotent :
    (∀ (r : AsciiRenderer) (P : STParams),
        (ascii_render (ascii_render r P).2 P).1 = (ascii_render r P).1) ∧
      ∀ (inner : MDTable → Except PyError String) (il : Bool) (t : MDTable) (out : String),
        (md_render inner il t).1 = .ok out →
        md_render inner il (md_render inner il t).2 = md_render inner il t := by
  refine ⟨fun r P => rfl, fun inner il t out h => ?_⟩
  rw [md_render_ok_state inner il t out h]

/-- C7 witness: the mean-difference half of the idempotence theorem
applied to the concrete table `md7w`. -/
theorem c7_idempotent_witness :
    md_render (fun _ => .ok "body") false
        ((md_render (fun _ => .ok "body") false md7w).2)
      = md_render (fun _ => .ok "body") false md7w :=
  c7_render_idempotent.2 (fun _ => .ok "body") false md7w "body" rfl

/-- C10: `add_note` stores the `(text, alignment, escape)` triple, and
`remove_note(note=text)` hands the bare string to `list.remove`, which
compares it against the stored triples; a string never equals a triple,
so removal by text always raises `ValueError` and the notes list is
unchanged (such a note can only be removed by index or by passing the
full triple). -/
theorem c10_remove_note_by_text_fails (s : TableState) (n a : String) (e : Bool)
    (s1 : TableState) (h : add_note s n a e = .ok s1) :
    s1.notes = s.notes ++ [(n, a, e)] ∧
      remove_note s1 (some (.str n)) none
        = .error (.valueError "list.remove(x): x not in list") ∧
      (resultState s1 (remove_note s1 (some (.str n)) none)).notes = s1.notes := by
  have hs1 := add_note_inv s n a e s1 h
  have hfind : removeFirstBy (pyTargetEq (.str n)) s1.notes = none :=
    removeFirstBy_false _ (fun x => rfl) s1.notes
  have e0 : remove_note s1 (some (.str n)) none
      = match removeFirstBy (pyTargetEq (.str n)) s1.notes with
        | some l => .ok { s1 with notes := l }
        | none => .error (.valueError "list.remove(x): x not in list") := rfl
  have key : remove_note s1 (some (.str n)) none
      = .error (.valueError "list.remove(x): x not in list") := by
    rw [e0, hfind]
  refine ⟨by rw [hs1], key, ?_⟩
  rw [key]
  rfl

/-- C10 witness: the theorem applied to a note added to the default
table state. -/
theorem c10_remove_note_witness :
    ({ s8 with notes := [("note", "l", true)] } : TableState).notes
        = s8.notes ++ [("note", "l", true)] ∧
      remove_note { s8 with notes := [("note", "l", true)] } (some (.str "note")) none
        = .error (.valueError "list.remove(x): x not in list") ∧
      (resultState { s8 with notes := [("note", "l", true)] }
          (remove_note { s8 with notes := [("note", "l", true)] } (some (.str "note")) none)).notes
        = ({ s8 with notes := [("note", "l", true)] } : TableState).notes :=
  c10_remove_note_by_text_fails s8 "note" "l" true _ rfl
